import Mathlib

/-!
Verification of the Jarvis agent-orchestration core against its specification.

The Python source under verification consists of four modules:
  * `jarvis/jarvis_tools/registry.py`     — the tool dispatcher (`ToolRegistry`)
  * `jarvis/jarvis_multi_agent/__init__.py` — the multi-agent router (`MultiAgent`)
  * `jarvis/jarvis_agent/__init__.py`     — the agent loop (`Agent`)
  * `jarvis/jarvis_code_agent/patch.py`   — the patch applier (`PatchOutputHandler`)

External collaborators (the YAML/JSON parsers, the model service, the token
estimator from `jarvis_utils`, console printing) are modelled as explicit
parameters: the dispatch logic under test never inspects their internals, so
each theorem quantifies over them.  Console output (`PrettyOutput.print`) is
side-effect-only in the source and is modelled only where a claim refers to it.
-/

namespace Jarvis

/-! ## List/string preliminaries

Python operates on character strings; we mirror its slicing and substring
search on `List Char` and wrap results back into `String`
(`String.data` is the underlying character list).
-/

/-- Substring test on character lists: does `pat` occur contiguously in `s`?
Mirrors Python's `pat in s`. -/
def containsSub (pat : List Char) : List Char → Bool
  | [] => pat.isEmpty
  | c :: rest => pat.isPrefixOf (c :: rest) || containsSub pat rest

/-- Substring test on strings. -/
def containsStr (pat s : String) : Bool :=
  containsSub pat.data s.data

/-- `splitFirst pat s` finds the first occurrence of `pat` in `s` and returns
the text before it and the text after it, or `none` when `pat` does not occur.
This is the primitive behind the left-to-right regex scan. -/
def splitFirst (pat : List Char) : List Char → Option (List Char × List Char)
  | [] => if pat.isEmpty then some ([], []) else none
  | c :: rest =>
    if pat.isPrefixOf (c :: rest) then
      some ([], (c :: rest).drop pat.length)
    else
      match splitFirst pat rest with
      | some (pre, post) => some (c :: pre, post)
      | none => none

/-- Fueled scan extracting all non-overlapping `openT …​ closeT` spans,
leftmost-first with the shortest body, exactly as Python's
`re.findall(r'<TAG>(.*?)</TAG>', content, re.DOTALL)` does. -/
def findAllTagsAux (openT closeT : List Char) : Nat → List Char → List (List Char)
  | 0, _ => []
  | fuel + 1, s =>
    match splitFirst openT s with
    | none => []
    | some (_, afterOpen) =>
      match splitFirst closeT afterOpen with
      | none => []
      | some (body, rest) => body :: findAllTagsAux openT closeT fuel rest

/-- All tagged spans of `content`, e.g. the bodies of
`<TOOL_CALL>…</TOOL_CALL>` blocks. -/
def findAllTags (openT closeT : String) (content : String) : List String :=
  (findAllTagsAux openT.data closeT.data content.data.length content.data).map
    (fun l => String.mk l)

/-- Python slice `s[:n]` on a string. -/
def pyTake (s : String) (n : Nat) : String :=
  String.mk (s.data.take n)

/-- Python slice `s[-n:]` on a string.  Note the Python edge case: for
`n = 0` the slice `s[-0:]` is the whole string. -/
def pySliceLast (s : String) (n : Nat) : String :=
  if n = 0 then s else String.mk (s.data.drop (s.data.length - n))

/-- Python `len(s)` (number of characters). -/
def strLen (s : String) : Nat :=
  s.data.length

/-- Python `', '.join(["'" + n + "'" for n in names])`, the rendering used by
`f"{dict.keys()}"` for the key list. -/
def quoteJoin : List String → String
  | [] => ""
  | [n] => "'" ++ n ++ "'"
  | n :: m :: rest => "'" ++ n ++ "'" ++ ", " ++ quoteJoin (m :: rest)

/-- Python `f"{d.keys()}"` for a `dict` renders as `dict_keys(['a', 'b'])`. -/
def dictKeysRepr (names : List String) : String :=
  "dict_keys([" ++ quoteJoin names ++ "])"

/-- Python `', '.join(keys)` as used for listing available tool names. -/
def commaJoin : List String → String
  | [] => ""
  | [n] => n
  | n :: m :: rest => n ++ ", " ++ commaJoin (m :: rest)

/-! ## Tool dispatcher (`jarvis/jarvis_tools/registry.py`)

`ToolRegistry` keeps a `name -> Tool` table, extracts `<TOOL_CALL>` blocks
from model text with `re.findall` + `yaml.safe_load`, and dispatches at most
one call per response.  `yaml.safe_load` and `json.loads` are external
libraries; they enter the embedding as parameters (`yamlParse`, `jsonParse`):
the registry only observes whether parsing succeeded and which `name` /
`arguments` fields came back.  The token estimator
(`jarvis_utils.embedding.get_context_token_count`) and the configured budget
(`int(get_max_token_count() * 0.8)`) are likewise parameters, as is the
summarization model call (`chat_until_success`; `none` models a raised
exception). -/

/-- The `arguments` field of an extracted tool call: either a structured
mapping (YAML mapping) or raw text that still needs `json.loads`. -/
inductive ToolArgs where
  | map (m : List (String × String))
  | raw (s : String)
  deriving DecidableEq, Repr

/-- An extracted tool call: a parsed block having both a `name` and an
`arguments` field (`_extract_tool_calls` keeps exactly those). -/
structure ToolCall where
  name : String
  arguments : ToolArgs
  deriving DecidableEq, Repr

/-- Result of `Tool.execute`: the `{success, stdout, stderr}` mapping of the
tool plugin interface. -/
structure ToolResult where
  success : Bool
  stdout : String
  stderr : String
  deriving DecidableEq, Repr

/-- A registered tool: its unique name and executable procedure
(description and parameter schema do not influence dispatch). -/
structure Tool where
  name : String
  execute : List (String × String) → ToolResult

/-- The registry's tool table: `name -> Tool`, insertion-ordered. -/
abbrev ToolTable := List (String × Tool)

/-- External collaborators of `handle_tool_calls`, passed explicitly:
`jsonParse` models `json.loads` on raw argument text (`none` = raised
`JSONDecodeError`), `tokenCount` models `get_context_token_count`,
`summarize` models the summarization chat (`none` = raised exception), and
`maxTokenCount` is `self.max_token_count = int(get_max_token_count() * 0.8)`. -/
structure DispatchEnv where
  jsonParse : String → Option (List (String × String))
  tokenCount : String → Nat
  summarize : String → Option String
  maxTokenCount : Nat

/-- `ToolRegistry._extract_tool_calls`: find every
`<TOOL_CALL>…</TOOL_CALL>` span, YAML-parse each body, and keep the ones
that have both a `name` and an `arguments` field (parse failures are
skipped).  `yamlParse` returns `none` both for YAML errors and for parses
missing either field. -/
def extract_tool_calls (yamlParse : String → Option ToolCall) (content : String) :
    List ToolCall :=
  (findAllTags "<TOOL_CALL>" "</TOOL_CALL>" content).filterMap yamlParse

/-- Execution trace: which tools actually ran, with which arguments.  The
source runs a tool exactly where `tool.execute(arguments)` is reached; the
embedding records that point. -/
abbrev Trace := List (String × List (String × String))

/-- `ToolRegistry.execute_tool`: look the tool up by name; when absent,
return a failure result naming the missing tool and listing the available
names (no tool runs); otherwise run the tool. -/
def execute_tool (tools : ToolTable) (name : String)
    (args : List (String × String)) : ToolResult × Trace :=
  match tools.lookup name with
  | none =>
    ({ success := false
       stdout := ""
       stderr := "Tool " ++ name ++ " does not exist, available tools: " ++
         commaJoin (tools.map Prod.fst) },
     [])
  | some t => (t.execute args, [(name, args)])

/-- The textual report `handle_tool_calls` builds from a tool result:
stdout and stderr sections joined by a blank line, or the fixed
no-output marker when both are empty. -/
def build_output (r : ToolResult) : String :=
  let parts : List String :=
    (if r.stdout ≠ "" then ["输出:\n" ++ r.stdout] else []) ++
    (if r.stderr ≠ "" then ["错误:\n" ++ r.stderr] else [])
  let output := String.intercalate "\n\n" parts
  if output = "" then "无输出和错误" else output

/-- The summarization prompt sent to the model for an oversized report
(`handle_tool_calls`' `prompt` f-string). -/
def summary_prompt_text (name output_to_summarize : String) : String :=
  "请总结以下工具的执行结果，提取关键信息和重要结果。注意：\n" ++
  "1. 保留所有重要的数值、路径、错误信息等\n" ++
  "2. 保持结果的准确性\n" ++
  "3. 用简洁的语言描述主要内容\n" ++
  "4. 如果有错误信息，确保包含在总结中\n\n" ++
  "工具名称: " ++ name ++ "\n执行结果:\n" ++ output_to_summarize ++
  "\n\n请提供总结:"

/-- The fallback text `handle_tool_calls` returns when summarization of an
oversized report raises: an explicit too-long notice with the character
count and the first-300-characters preview. -/
def too_long_fallback (output : String) : String :=
  "输出过长 (" ++ toString (strLen output) ++
  " 字符)，建议查看原始输出。\n前300字符预览:\n" ++ pyTake output 300 ++ "..."

/-- The oversized-report branch of `handle_tool_calls`: take the report tail
(`output[-max_count:]`), request a summary, wrap it in the summary banner;
on a raised exception fall back to `too_long_fallback`.  The inner
`if get_context_token_count(output) > max_count` of the source repeats the
branch condition, so both of its arms are kept. -/
def summarize_output (env : DispatchEnv) (name output : String) : String :=
  let output_to_summarize :=
    if env.tokenCount output > env.maxTokenCount then
      pySliceLast output env.maxTokenCount
    else output
  let truncation_notice :=
    if env.tokenCount output > env.maxTokenCount then
      "\n(注意：由于输出过长，仅总结最后 " ++ toString env.maxTokenCount ++
      " 个字符)"
    else ""
  match env.summarize (summary_prompt_text name output_to_summarize) with
  | some summary =>
    "--- 原始输出过长，以下是总结 ---" ++ truncation_notice ++ "\n\n" ++
    summary ++ "\n\n--- 总结结束 ---"
  | none => too_long_fallback output

/-- Post-processing of a tool result into the handler's textual result: build
the report; on success with an oversized report, summarize (with the
too-long fallback); otherwise return the report as is. -/
def process_result (env : DispatchEnv) (name : String) (r : ToolResult) : String :=
  let output := build_output r
  if r.success then
    if env.tokenCount output > env.maxTokenCount then
      summarize_output env name output
    else output
  else output

/-- `ToolRegistry.handle_tool_calls` on one extracted call: resolve raw
argument text through `json.loads` (on a parse failure print a console
format-error and return `""` without executing anything), then execute and
post-process.  The returned trace records the tool executions performed. -/
def handle_tool_calls (env : DispatchEnv) (tools : ToolTable) (tc : ToolCall) :
    String × Trace :=
  let argsOpt : Option (List (String × String)) :=
    match tc.arguments with
    | .map m => some m
    | .raw s => env.jsonParse s
  match argsOpt with
  | none => ("", [])
  | some args =>
    let (result, tr) := execute_tool tools tc.name args
    (process_result env tc.name result, tr)

/-- The corrective text `ToolRegistry.handle` returns when more than one tool
call is extracted (the attempted tool names are printed to the console only,
not included in this returned text). -/
def multiple_calls_msg : String :=
  "Call failed: Handle multiple tool calls, please ONLY handle one tool call at a time."

/-- `ToolRegistry.handle`: extract the tool calls; with more than one,
refuse with the corrective message; with none, return the empty result;
with exactly one, dispatch it.  The first component is the `terminate`
flag (`False` in every branch of the source); the last is the execution
trace. -/
def registry_handle (env : DispatchEnv) (tools : ToolTable)
    (yamlParse : String → Option ToolCall) (response : String) :
    Bool × String × Trace :=
  let tool_calls := extract_tool_calls yamlParse response
  if tool_calls.length > 1 then
    (false, multiple_calls_msg, [])
  else
    match tool_calls with
    | [] => (false, "", [])
    | tc :: _ =>
      let (out, tr) := handle_tool_calls env tools tc
      (false, out, tr)

/-- `ToolRegistry.can_handle`: true when at least one tool call extracts. -/
def registry_can_handle (yamlParse : String → Option ToolCall)
    (response : String) : Bool :=
  extract_tool_calls yamlParse response ≠ []

/-- The dict comprehension of `use_tools` — `n: self.tools[n] for n in name`
— evaluated left to right, raising `KeyError` at the first requested name
that is not registered. -/
def use_tools_build (tools : ToolTable) : List String → Except String ToolTable
  | [] => .ok []
  | n :: rest =>
    match tools.lookup n with
    | none => .error ("KeyError: " ++ n)
    | some t =>
      match use_tools_build tools rest with
      | .ok tb => .ok ((n, t) :: tb)
      | .error e => .error e

/-- `ToolRegistry.use_tools`: first compute the missing names and print a
console warning when there are any (the `Bool` records that the warning was
printed); then rebuild the table with the dict comprehension, which raises
`KeyError` at the first requested name that is not registered. -/
def use_tools (tools : ToolTable) (names : List String) :
    Bool × Except String ToolTable :=
  let missing := names.filter (fun n => (tools.lookup n).isNone)
  (missing ≠ [], use_tools_build tools names)

/-! ## Multi-agent router (`jarvis/jarvis_multi_agent/__init__.py`)

`MultiAgent` extracts `<SEND_MESSAGE>` blocks the same way the registry
extracts tool calls (`re.findall` + `yaml.safe_load`, keeping parses with
both a `to` and a `content` field).  Its `handle` is the one handler that
can return `terminate = True`; the coordinator's `run` loop then resolves
the message.  Each agent's own `run` is an opaque interaction with the model
service, so the coordinator is embedded over a registry of agent functions
`String → RunOutcome`. -/

/-- A routed message: the `to`/`content` mapping of a send-message block. -/
structure SendMsg where
  «to» : String
  content : String
  deriving DecidableEq, Repr

/-- `MultiAgent._extract_send_msg`: like `extract_tool_calls`, over
`<SEND_MESSAGE>` blocks. -/
def extract_send_msg (yamlParse : String → Option SendMsg) (content : String) :
    List SendMsg :=
  (findAllTags "<SEND_MESSAGE>" "</SEND_MESSAGE>" content).filterMap yamlParse

/-- `MultiAgent.can_handle`: `len(self._extract_send_msg(response)) > 0`. -/
def multi_can_handle (yamlParse : String → Option SendMsg)
    (response : String) : Bool :=
  (extract_send_msg yamlParse response).length > 0

/-- The result component of `MultiAgent.handle` / `Agent.run`: in Python it
is `Any`, either a plain string or the routed-message dict. -/
inductive RunOutcome where
  | text (s : String)
  | msg (m : SendMsg)
  deriving DecidableEq, Repr

/-- `MultiAgent.handle`: more than one message → `(False, corrective)`;
none → `(False, "")`; exactly one → `(True, message)` — the only
`terminate = True` in any handler. -/
def multi_handle (yamlParse : String → Option SendMsg) (response : String) :
    Bool × RunOutcome :=
  let send_messages := extract_send_msg yamlParse response
  if send_messages.length > 1 then
    (false, .text "Send multiple messages, please only send one message at a time.")
  else
    match send_messages with
    | [] => (false, .text "")
    | m :: _ => (true, .msg m)

/-- Python truthiness of a `run` result: the `while msg:` test — an empty
string is falsy, a (non-empty) dict is truthy. -/
def outcomeTruthy : RunOutcome → Bool
  | .text s => s ≠ ""
  | .msg _ => true

/-- One registry of live agents: name to the agent's `run` behaviour. -/
abbrev AgentRegistry := List (String × (String → RunOutcome))

/-- Invoke `self.agents[name].run(prompt)`; the coordinator only calls this
on registered names. -/
def agentCall (agents : AgentRegistry) (name prompt : String) : RunOutcome :=
  match agents.lookup name with
  | some f => f prompt
  | none => .text ""

/-- The corrective prompt `MultiAgent.run` sends back to the *sender* when a
message is routed to an unknown agent name:
`f"未找到智能体 ...，可用智能体列表: ..."` with the Python rendering of
`self.agents.keys()`. -/
def unknown_agent_msg («to» : String) (agents : AgentRegistry) : String :=
  "未找到智能体 " ++ «to» ++ "，可用智能体列表: " ++
  dictKeysRepr (agents.map Prod.fst)

/-- The wrapped prompt `MultiAgent.run` sends to the resolved target agent,
identifying the sender. -/
def routed_prompt (fromAgent content : String) : String :=
  "\nPlease handle this message:\nfrom: " ++ fromAgent ++
  "\ncontent: " ++ content ++ "\n"

/-- The `while msg:` loop of `MultiAgent.run`, fueled to stay total: a falsy
result ends the loop with `""`; a string result is returned; a routed
message with an unknown `to` re-invokes the sender with the corrective
listing and continues; otherwise the target agent is invoked with the
wrapped prompt and becomes the new sender. -/
def multi_run_loop (agents : AgentRegistry) :
    Nat → String → RunOutcome → String
  | 0, _, _ => ""
  | _ + 1, _, .text "" => ""
  | _ + 1, _, .text s => s
  | fuel + 1, lastAgent, .msg m =>
    if (agents.lookup m.«to»).isNone then
      multi_run_loop agents fuel lastAgent
        (agentCall agents lastAgent (unknown_agent_msg m.«to» agents))
    else
      multi_run_loop agents fuel m.«to»
        (agentCall agents m.«to» (routed_prompt lastAgent m.content))

/-- `MultiAgent.run`: start with the main agent on the user input. -/
def multi_run (agents : AgentRegistry) (mainAgent : String) (fuel : Nat)
    (userInput : String) : String :=
  multi_run_loop agents fuel mainAgent (agentCall agents mainAgent userInput)

/-! ## Patch applier (`jarvis/jarvis_code_agent/patch.py`)

Only `PatchOutputHandler.handle`'s shape matters to the claims: it always
returns `(False, apply_patch(response))`.  `apply_patch` touches the file
system and git, so it enters as an opaque parameter. -/

/-- `PatchOutputHandler.handle`: never terminates the run. -/
def patch_handle (applyPatch : String → String) (response : String) :
    Bool × String :=
  (false, applyPatch response)

/-! ## Agent loop (`jarvis/jarvis_agent/__init__.py`)

The loop's collaborators — the model service (`chat_until_success`,
`support_upload_files`, `upload_files`), the human input functions
(`get_multiline_input`, `user_confirm`) and the token estimator — are all
external to the dispatch logic and enter through `CompactEnv` / `LoopEnv`
records describing their behaviour during the turn under consideration. -/

/-- Collaborator behaviour for history compaction.  `chatSummary` is the
model's reply to the summary request in `generate_summary` (`none` models a
raised exception, which that method converts to `""`); `supportUpload` /
`uploadOk` drive `_handle_history_with_file_upload`. -/
structure CompactEnv where
  tokenCount : String → Nat
  supportUpload : Bool
  uploadOk : Bool
  chatSummary : Option String

/-- `Agent._format_summary_message`: the banner wrapped around a non-empty
history summary. -/
def format_summary_message (summary : String) : String :=
  "\n以下是之前对话的关键信息总结：\n\n<content>\n" ++ summary ++
  "\n</content>\n\n请基于以上信息继续完成任务。请注意，这是之前对话的摘要，" ++
  "上下文长度已超过限制而被重置。请直接继续任务，无需重复已完成的步骤。" ++
  "如有需要，可以询问用户以获取更多信息。\n        "

/-- `Agent.generate_summary`: the model's summary reply, or `""` when the
call raises. -/
def generate_summary (env : CompactEnv) : String :=
  match env.chatSummary with
  | some s => s
  | none => ""

/-- `Agent._summarize_and_clear_history`: with file upload supported, clear
history and seed a pointer message when the upload succeeds (`""`
otherwise); without it, generate a summary, clear history, and wrap a
non-empty summary in the banner (`""` when the summary came back empty). -/
def summarize_and_clear_history (env : CompactEnv) : String :=
  if env.supportUpload then
    if env.uploadOk then
      "上传的文件是历史对话信息，请基于历史对话信息继续完成任务。"
    else ""
  else
    let summary := generate_summary env
    if summary = "" then "" else format_summary_message summary

/-- `Agent._manage_conversation_length`: add the outgoing message's token
estimate to `conversation_length`; over the budget, compact — prepend the
compaction seed (when non-empty) to the message and reset
`conversation_length` to the token estimate of the message actually kept.
Returns (message to send, new `conversation_length`). -/
def manage_conversation_length (env : CompactEnv) (maxTokenCount : Nat)
    (conversationLength : Nat) (message : String) : String × Nat :=
  let conversationLength := conversationLength + env.tokenCount message
  if conversationLength > maxTokenCount then
    let summary := summarize_and_clear_history env
    let message := if summary ≠ "" then summary ++ "\n\n" ++ message else message
    (message, env.tokenCount message)
  else
    (message, conversationLength)

/-- An output handler as the loop sees it: the `can_handle` / `handle` pair.
The handler result is kept as a string (`MultiAgent.handle`'s dict result is
irrelevant to the loop-turn claims). -/
structure Handler where
  canHandle : String → Bool
  handle : String → Bool × String

/-- `ot(x)` from `jarvis_utils.tag`.  Modelled from the spec: the module is
not under `src/`; the spec describes action syntax as "a tagged block whose
tag name identifies the handler", and the loop checks the auto-complete
marker `ot("!!!COMPLETE!!!")` inside the response text, so `ot` renders an
opening tag around its argument. -/
def ot (s : String) : String :=
  "<" ++ s ++ ">"

/-- `execute_tool_call` from `jarvis_agent.tool_executor`, reached through
`Agent._call_tools`.  Modelled from the spec: the module is not under
`src/`; spec §4.4 `ROUTE_RESPONSE` — "evaluates handlers in registration
order; the first whose `canHandle` returns true gets `handle` invoked; if
none matches, the response is treated as a plain assertion with no action",
i.e. `(False, "")`. -/
def execute_tool_call (handlers : List Handler) (response : String) :
    Bool × String :=
  match handlers.find? (fun h => h.canHandle response) with
  | some h => h.handle response
  | none => (false, "")

/-- The Python value returned by `Agent._handle_run_interrupt`:
`None`, a result string, or the `(run_input_handlers, should_continue)`
tuple. -/
inductive PyInterruptRet where
  | pynone
  | str (s : String)
  | tup (runInputHandlers shouldContinue : Bool)
  deriving DecidableEq, Repr

/-- Python truthiness of the interrupt return, as tested by
`if interrupt_result:` in `_main_loop`: `None` and `""` are falsy, any
non-empty string and any (non-empty) tuple are truthy. -/
def pyTruthy : PyInterruptRet → Bool
  | .pynone => false
  | .str s => s ≠ ""
  | .tup _ _ => true

/-- Collaborator behaviour for one turn of `Agent._main_loop`, from the
point the model response is available. -/
structure LoopEnv where
  handlers : List Handler
  interrupt : Bool
  interventionInput : String
  confirmToolCall : Bool
  completeResult : String
  autoCompleteResult : String
  autoComplete : Bool
  addonPrompt : String
  nextUserInput : String

/-- `Agent._handle_run_interrupt`: with the interrupt flag clear return
`None`; otherwise clear the flag and solicit intervention text — empty
text returns `_complete_task`'s result, a structural handler match asks for
confirmation (`None` continues to the pending handler, `(True, True)` routes
a refusal note), no match routes the intervention note.  The second
component is the `session.prompt` it leaves behind. -/
def handle_run_interrupt (env : LoopEnv) (current_response : String) :
    PyInterruptRet × String :=
  if !env.interrupt then (.pynone, "")
  else if env.interventionInput = "" then (.str env.completeResult, "")
  else if env.handlers.any (fun h => h.canHandle current_response) then
    if env.confirmToolCall then
      (.pynone,
       "被用户中断，用户补充信息为：" ++ env.interventionInput ++
       "\n\n用户同意继续工具调用。")
    else
      (.tup true true,
       "被用户中断，用户补充信息为：" ++ env.interventionInput ++
       "\n\n检测到有工具调用，但被用户拒绝执行。请根据用户的补充信息重新考虑下一步操作。")
  else
    (.tup true true, "被用户中断，用户补充信息为：" ++ env.interventionInput)

/-- How one `_main_loop` turn ends: `ret` leaves the loop with a result;
`nextTurn prompt runInputHandlers` goes round again with `session.prompt`
set to `prompt`. -/
inductive TurnOutcome where
  | ret (s : String)
  | nextTurn (prompt : String) (runInputHandlers : Bool)
  deriving DecidableEq, Repr

/-- The tail of a `_main_loop` turn after the interrupt check fell through:
route the response to the handlers (`need_return` returns the handler
result), continue when a prompt or addon prompt is pending, check the
auto-complete marker, otherwise ask the human — non-empty input continues,
empty input completes the task. -/
def rest_of_turn (env : LoopEnv) (current_response : String) : TurnOutcome :=
  let (need_return, result) := execute_tool_call env.handlers current_response
  if need_return then .ret result
  else if result ≠ "" ∨ env.addonPrompt ≠ "" then .nextTurn result false
  else if env.autoComplete && containsStr (ot "!!!COMPLETE!!!") current_response then
    .ret env.autoCompleteResult
  else if env.nextUserInput ≠ "" then .nextTurn env.nextUserInput true
  else .ret env.completeResult

/-- One turn of `Agent._main_loop` from the point `current_response` is in
hand: run the interrupt check, and route its returned value through
`if interrupt_result:` — the Python *truthiness* test — returning
non-tuple truthy values, continuing on the tuple, and falling through to
handler dispatch otherwise. -/
def main_loop_turn (env : LoopEnv) (current_response : String) : TurnOutcome :=
  let (interrupt_result, prompt1) := handle_run_interrupt env current_response
  if pyTruthy interrupt_result then
    match interrupt_result with
    | .tup runInputHandlers shouldContinue =>
      if shouldContinue then .nextTurn prompt1 runInputHandlers
      else rest_of_turn env current_response
    | .str s => .ret s
    | .pynone => rest_of_turn env current_response
  else rest_of_turn env current_response

/-! ## Concrete fixtures

Closed instantiations used to evaluate the embedding at explicit inputs:
a YAML parser fragment covering three block bodies, a send-message parser
fragment, small tool tables, and dispatch environments. -/

/-- A concrete `yaml.safe_load` behaviour: body `A` parses to a call of
`alpha` with a structured mapping, body `B` to a call of `beta`, body `R`
to a call of `alpha` whose arguments came through as the raw text
`notjson`; everything else fails to parse. -/
def yamlFixture : String → Option ToolCall := fun s =>
  if s = "A" then some ⟨"alpha", .map [("x", "1")]⟩
  else if s = "B" then some ⟨"beta", .map []⟩
  else if s = "R" then some ⟨"alpha", .raw "notjson"⟩
  else none

/-- A concrete send-message parser: bodies `M1` / `M2` parse to messages for
agents `ag1` / `ag2`. -/
def sendFixture : String → Option SendMsg := fun s =>
  if s = "M1" then some ⟨"ag1", "hello"⟩
  else if s = "M2" then some ⟨"ag2", "hi"⟩
  else none

/-- A registered tool that succeeds with a short stdout. -/
def alphaTool : Tool :=
  ⟨"alpha", fun _ => ⟨true, "ok-stdout", ""⟩⟩

/-- A tool whose execution fails, with a ten-character stdout. -/
def failTool : Tool :=
  ⟨"fail", fun _ => ⟨false, "0123456789", ""⟩⟩

/-- A tool whose execution succeeds, with a ten-character stdout. -/
def bigTool : Tool :=
  ⟨"big", fun _ => ⟨true, "0123456789", ""⟩⟩

/-- Table with only `alpha` registered. -/
def toolsFixture : ToolTable := [("alpha", alphaTool)]

/-- Table with only `fail` registered. -/
def toolsFail : ToolTable := [("fail", failTool)]

/-- Table with only `big` registered. -/
def toolsBig : ToolTable := [("big", bigTool)]

/-- Dispatch environment where JSON parsing and summarization always fail,
tokens are counted as characters, and the budget is generous. -/
def envFixture : DispatchEnv :=
  ⟨fun _ => none, strLen, fun _ => none, 1000⟩

/-- Dispatch environment with a tiny budget (3 tokens) so that every
ten-character report is oversized; summarization always fails. -/
def envSmall : DispatchEnv :=
  ⟨fun _ => none, strLen, fun _ => none, 3⟩

/-- Compaction environment: tokens counted as characters, no file upload,
the summary chat answers `SUM`. -/
def compactFixture : CompactEnv :=
  ⟨strLen, false, false, some "SUM"⟩

/-- A handler that structurally matches everything and records its execution
through its result text. -/
def matchAllHandler : Handler :=
  ⟨fun _ => true, fun _ => (false, "HANDLER_RAN")⟩

/-- The failing turn environment for the interrupt claim: the interrupt flag
is observed set, the human supplies empty intervention input, and
`_complete_task` produces the empty string (its summary chat returned
`""`); the pending response structurally matches `matchAllHandler`. -/
def loopEnvBug : LoopEnv :=
  { handlers := [matchAllHandler]
    interrupt := true
    interventionInput := ""
    confirmToolCall := true
    completeResult := ""
    autoCompleteResult := "AUTO"
    autoComplete := false
    addonPrompt := ""
    nextUserInput := "" }

/-- A two-agent registry whose agents answer any prompt with a fixed text. -/
def agentsFixture : AgentRegistry :=
  [("ag1", fun _ => .text "from-ag1"), ("ag2", fun _ => .text "from-ag2")]

/-! ## Helper lemmas on substring containment -/

theorem isPrefixOf_append_self (p t : List Char) :
    p.isPrefixOf (p ++ t) = true := by
  rw [List.isPrefixOf_iff_prefix]
  exact List.prefix_append p t

theorem isPrefixOf_append_ext (p s t : List Char)
    (h : p.isPrefixOf s = true) : p.isPrefixOf (s ++ t) = true := by
  rw [List.isPrefixOf_iff_prefix] at h ⊢
  exact h.trans (List.prefix_append s t)

theorem containsSub_of_isPrefixOf (p s : List Char)
    (h : p.isPrefixOf s = true) : containsSub p s = true := by
  cases s with
  | nil =>
    cases p with
    | nil => rfl
    | cons a as => simp [List.isPrefixOf] at h
  | cons c rest => simp [containsSub, h]

theorem containsSub_append_right (p t s : List Char)
    (h : containsSub p s = true) : containsSub p (t ++ s) = true := by
  induction t with
  | nil => simpa using h
  | cons c rest ih => simp [containsSub, ih]

theorem containsSub_append_left (p s t : List Char)
    (h : containsSub p s = true) : containsSub p (s ++ t) = true := by
  induction s with
  | nil =>
    simp [containsSub] at h
    subst h
    cases t with
    | nil => rfl
    | cons c r => simp [containsSub, List.isPrefixOf]
  | cons c rest ih =>
    simp only [containsSub, Bool.or_eq_true] at h
    rcases h with h | h
    · simp only [List.cons_append, containsSub, Bool.or_eq_true]
      exact Or.inl (isPrefixOf_append_ext _ _ _ h)
    · simp only [List.cons_append, containsSub, Bool.or_eq_true]
      exact Or.inr (ih h)

theorem containsSub_length_le (p s : List Char)
    (h : containsSub p s = true) : p.length ≤ s.length := by
  induction s with
  | nil =>
    simp [containsSub] at h
    simp [h]
  | cons c rest ih =>
    simp only [containsSub, Bool.or_eq_true] at h
    rcases h with h | h
    · rw [List.isPrefixOf_iff_prefix] at h
      exact h.length_le
    · exact Nat.le_trans (ih h) (Nat.le_succ _)

theorem containsStr_append_right (p t s : String)
    (h : containsStr p s = true) : containsStr p (t ++ s) = true := by
  unfold containsStr at h ⊢
  rw [String.data_append]
  exact containsSub_append_right _ _ _ h

theorem containsStr_append_left (p s t : String)
    (h : containsStr p s = true) : containsStr p (s ++ t) = true := by
  unfold containsStr at h ⊢
  rw [String.data_append]
  exact containsSub_append_left _ _ _ h

theorem containsStr_self (p : String) : containsStr p p = true := by
  unfold containsStr
  exact containsSub_of_isPrefixOf _ _ (by simp [isPrefixOf_append_self p.data []])

theorem containsStr_self_append (p t : String) :
    containsStr p (p ++ t) = true :=
  containsStr_append_left _ _ _ (containsStr_self p)

/-- A name occurs (quoted) in the Python rendering of the key list. -/
theorem containsStr_quoteJoin (n : String) (names : List String)
    (h : n ∈ names) : containsStr n (quoteJoin names) = true := by
  induction names with
  | nil => cases h
  | cons m rest ih =>
    rcases List.mem_cons.mp h with rfl | h
    · cases rest with
      | nil =>
        show containsStr n ("'" ++ n ++ "'") = true
        exact containsStr_append_left _ _ _ (containsStr_append_right _ _ _ (containsStr_self n))
      | cons b r =>
        show containsStr n ("'" ++ n ++ "'" ++ ", " ++ quoteJoin (b :: r)) = true
        exact containsStr_append_left _ _ _ (containsStr_append_left _ _ _
          (containsStr_append_left _ _ _ (containsStr_append_right _ _ _ (containsStr_self n))))
    · cases rest with
      | nil => cases h
      | cons b r =>
        show containsStr n ("'" ++ m ++ "'" ++ ", " ++ quoteJoin (b :: r)) = true
        exact containsStr_append_right _ _ _ (ih h)

/-! ## Claims -/

/-- C1 — counterexample.  The claim says the result text returned for a
multi-call response "names all attempted tool names".  On a response whose
two extracted calls are named `alpha` and `beta`, `ToolRegistry.handle`
executes nothing and returns the fixed corrective message, which contains
neither name (the names are printed to the console only). -/
theorem C1_counterexample :
    registry_handle envFixture toolsFixture yamlFixture
        "<TOOL_CALL>A</TOOL_CALL><TOOL_CALL>B</TOOL_CALL>" =
      (false, multiple_calls_msg, []) ∧
    (extract_tool_calls yamlFixture
        "<TOOL_CALL>A</TOOL_CALL><TOOL_CALL>B</TOOL_CALL>").map ToolCall.name =
      ["alpha", "beta"] ∧
    containsStr "alpha" multiple_calls_msg = false ∧
    containsStr "beta" multiple_calls_msg = false := by
  refine ⟨by decide, by decide, by decide, by decide⟩

/-- C1 (amended): for every model response from which the dispatcher
extracts two or more tool-call blocks, `ToolRegistry.handle` executes no
tool and returns a fixed corrective message asking for a single action; the
attempted tool names appear only in the console warning, not in the
returned result text. -/
theorem C1_multiple_calls_refused (env : DispatchEnv) (tools : ToolTable)
    (yamlParse : String → Option ToolCall) (response : String)
    (h : 2 ≤ (extract_tool_calls yamlParse response).length) :
    registry_handle env tools yamlParse response =
      (false, multiple_calls_msg, []) := by
  unfold registry_handle
  have h1 : (extract_tool_calls yamlParse response).length > 1 := h
  simp [h1]

theorem C1_multiple_calls_refused_witness :
    2 ≤ (extract_tool_calls yamlFixture
        "<TOOL_CALL>B</TOOL_CALL><TOOL_CALL>A</TOOL_CALL>").length ∧
    registry_handle envFixture toolsFixture yamlFixture
        "<TOOL_CALL>B</TOOL_CALL><TOOL_CALL>A</TOOL_CALL>" =
      (false, multiple_calls_msg, []) :=
  ⟨by decide,
   C1_multiple_calls_refused envFixture toolsFixture yamlFixture _ (by decide)⟩

/-- C2: for every model response from which the dispatcher extracts exactly
one well-formed tool-call block (a name plus a structured arguments
mapping) naming a registered tool, `ToolRegistry.handle` executes exactly
that tool exactly once — the trace is the single entry `(name, args)` —
and returns the post-processed textual result of that execution as the
handler result (with `terminate = false`). -/
theorem C2_single_call_executes_once (env : DispatchEnv) (tools : ToolTable)
    (yamlParse : String → Option ToolCall) (response : String)
    (tc : ToolCall) (m : List (String × String)) (t : Tool)
    (hx : extract_tool_calls yamlParse response = [tc])
    (hm : tc.arguments = .map m)
    (ht : tools.lookup tc.name = some t) :
    registry_handle env tools yamlParse response =
      (false, process_result env tc.name (t.execute m), [(tc.name, m)]) := by
  unfold registry_handle
  simp [hx, handle_tool_calls, hm, execute_tool, ht]

theorem C2_single_call_executes_once_witness :
    extract_tool_calls yamlFixture "<TOOL_CALL>A</TOOL_CALL>" =
      [⟨"alpha", .map [("x", "1")]⟩] ∧
    toolsFixture.lookup "alpha" = some alphaTool ∧
    registry_handle envFixture toolsFixture yamlFixture "<TOOL_CALL>A</TOOL_CALL>" =
      (false, process_result envFixture "alpha" (alphaTool.execute [("x", "1")]),
       [("alpha", [("x", "1")])]) :=
  ⟨by decide, rfl,
   C2_single_call_executes_once envFixture toolsFixture yamlFixture
     "<TOOL_CALL>A</TOOL_CALL>" ⟨"alpha", .map [("x", "1")]⟩ [("x", "1")]
     alphaTool (by decide) rfl rfl⟩

/-- C7 — counterexample.  The claim says the dispatcher "returns a clear
format-error result describing the malformed arguments".  On a call whose
raw argument text `notjson` fails JSON parsing, the tool is indeed not
executed, but the returned handler result is the *empty string* — it
describes nothing (the format-error text goes to the console only). -/
theorem C7_counterexample :
    envFixture.jsonParse "notjson" = none ∧
    registry_handle envFixture toolsFixture yamlFixture
        "<TOOL_CALL>R</TOOL_CALL>" = (false, "", []) ∧
    containsStr "alpha" "" = false ∧
    containsStr "notjson" "" = false := by
  refine ⟨rfl, by decide, by decide, by decide⟩

/-- C7 (amended): for every tool call whose arguments were supplied as raw
text and whose JSON parsing fails, the dispatcher does not execute the
tool (empty trace) and returns the empty string as the handler result; the
format-error description is printed to the console only. -/
theorem C7_parse_failure_no_execution (env : DispatchEnv) (tools : ToolTable)
    (tc : ToolCall) (s : String)
    (hraw : tc.arguments = .raw s)
    (hfail : env.jsonParse s = none) :
    handle_tool_calls env tools tc = ("", []) := by
  unfold handle_tool_calls
  simp [hraw, hfail]

theorem C7_parse_failure_no_execution_witness :
    (⟨"alpha", .raw "notjson"⟩ : ToolCall).arguments = .raw "notjson" ∧
    envFixture.jsonParse "notjson" = none ∧
    handle_tool_calls envFixture toolsFixture ⟨"alpha", .raw "notjson"⟩ = ("", []) :=
  ⟨rfl, rfl,
   C7_parse_failure_no_execution envFixture toolsFixture _ "notjson" rfl rfl⟩

/-- C3: whenever the running token estimate exceeds the budget and the
compaction step runs, the new `conversation_length` is exactly the token
count of the message actually retained as the post-compaction seed — the
compaction seed (summary or upload pointer) prepended to the pending
message when the seed is non-empty, the pending message alone otherwise —
and in particular not the pre-compaction accumulated value. -/
theorem C3_compaction_resets_to_seed (env : CompactEnv)
    (maxTokenCount conversationLength : Nat) (message : String)
    (h : maxTokenCount < conversationLength + env.tokenCount message) :
    (manage_conversation_length env maxTokenCount conversationLength message).2 =
      env.tokenCount
        (manage_conversation_length env maxTokenCount conversationLength message).1 ∧
    (manage_conversation_length env maxTokenCount conversationLength message).1 =
      (if summarize_and_clear_history env ≠ "" then
        summarize_and_clear_history env ++ "\n\n" ++ message
      else message) := by
  unfold manage_conversation_length
  simp [h]

theorem C3_compaction_resets_to_seed_witness :
    1 < 0 + compactFixture.tokenCount "hello" ∧
    (manage_conversation_length compactFixture 1 0 "hello").2 =
      compactFixture.tokenCount (manage_conversation_length compactFixture 1 0 "hello").1 ∧
    (manage_conversation_length compactFixture 1 0 "hello").1 =
      (if summarize_and_clear_history compactFixture ≠ "" then
        summarize_and_clear_history compactFixture ++ "\n\n" ++ "hello"
      else "hello") :=
  ⟨by decide,
   (C3_compaction_resets_to_seed compactFixture 1 0 "hello" (by decide)).1,
   (C3_compaction_resets_to_seed compactFixture 1 0 "hello" (by decide)).2⟩

/-- C4 — counterexample.  The claim quantifies over *every* executed tool
call with an oversized report.  When the tool's execution *fails*
(`success = false`), the source skips the summarization branch entirely:
in an environment whose budget is 3 tokens and whose summarization always
fails, a failing tool with a ten-character stdout yields a report that
exceeds the budget, yet the handler returns the full untruncated report
with no "输出过长" notice. -/
theorem C4_counterexample :
    (failTool.execute []).success = false ∧
    envSmall.tokenCount (build_output (failTool.execute [])) > envSmall.maxTokenCount ∧
    envSmall.summarize (summary_prompt_text "fail"
      (pySliceLast (build_output (failTool.execute [])) envSmall.maxTokenCount)) = none ∧
    handle_tool_calls envSmall toolsFail ⟨"fail", .map []⟩ =
      ("输出:\n0123456789", [("fail", [])]) ∧
    containsStr "0123456789" "输出:\n0123456789" = true ∧
    containsStr "输出过长" "输出:\n0123456789" = false := by
  refine ⟨rfl, by decide, rfl, by decide, by decide, by decide⟩

/-- C4 (amended): for every *successfully* executed tool call whose output
report exceeds the budget, summarization is attempted on the tail of the
report, and if it fails the handler returns the fallback text: it carries
the explicit "输出过长" notice and a preview of at most 300 characters
(the report's first 300), and — whenever the report is longer than the
fallback text — cannot contain the full untruncated report. -/
theorem C4_fallback_on_summary_failure (env : DispatchEnv) (name : String)
    (r : ToolResult)
    (hs : r.success = true)
    (hbig : env.tokenCount (build_output r) > env.maxTokenCount)
    (hfail : env.summarize (summary_prompt_text name
      (pySliceLast (build_output r) env.maxTokenCount)) = none) :
    process_result env name r = too_long_fallback (build_output r) ∧
    containsStr "输出过长" (too_long_fallback (build_output r)) = true ∧
    strLen (pyTake (build_output r) 300) ≤ 300 ∧
    (strLen (too_long_fallback (build_output r)) < strLen (build_output r) →
      containsStr (build_output r) (too_long_fallback (build_output r)) = false) := by
  refine ⟨?_, ?_, ?_, ?_⟩
  · unfold process_result summarize_output
    simp [hs, hbig, hfail]
  · unfold too_long_fallback
    exact containsStr_append_left _ _ _ (containsStr_append_left _ _ _
      (containsStr_append_left _ _ _ (containsStr_self_append _ _)))
  · unfold strLen pyTake
    simp [Nat.min_le_left]
  · intro hlt
    by_contra hcon
    rw [Bool.not_eq_false] at hcon
    have := containsSub_length_le _ _ hcon
    change strLen (build_output r) ≤ strLen (too_long_fallback (build_output r)) at this
    omega

theorem C4_fallback_on_summary_failure_witness :
    (bigTool.execute []).success = true ∧
    envSmall.tokenCount (build_output (bigTool.execute [])) > envSmall.maxTokenCount ∧
    envSmall.summarize (summary_prompt_text "big"
      (pySliceLast (build_output (bigTool.execute [])) envSmall.maxTokenCount)) = none ∧
    process_result envSmall "big" (bigTool.execute []) =
      too_long_fallback (build_output (bigTool.execute [])) ∧
    containsStr "输出过长" (too_long_fallback (build_output (bigTool.execute []))) = true :=
  ⟨rfl, by decide, rfl,
   (C4_fallback_on_summary_failure envSmall "big" (bigTool.execute [])
     rfl (by decide) rfl).1,
   (C4_fallback_on_summary_failure envSmall "big" (bigTool.execute [])
     rfl (by decide) rfl).2.1⟩

/-- C5 — counterexample.  The claim says `can_handle` returns false for
responses containing more than one send-message action.  On a response
whose extraction yields two messages, `MultiAgent.can_handle` returns
*true* (the source tests only `len(...) > 0`; the multi-message refusal
lives in `handle`). -/
theorem C5_counterexample :
    (extract_send_msg sendFixture
      "<SEND_MESSAGE>M1</SEND_MESSAGE><SEND_MESSAGE>M2</SEND_MESSAGE>").length = 2 ∧
    multi_can_handle sendFixture
      "<SEND_MESSAGE>M1</SEND_MESSAGE><SEND_MESSAGE>M2</SEND_MESSAGE>" = true := by
  refine ⟨by decide, by decide⟩

/-- C5 (amended): `MultiAgent.can_handle` returns true exactly when the
response contains at least one send-message action; it rejects only
responses containing zero such actions — responses containing more than
one also pass `can_handle` (they are refused later by `handle` with a
corrective message). -/
theorem C5_can_handle_iff_nonzero (yamlParse : String → Option SendMsg)
    (response : String) :
    multi_can_handle yamlParse response = true ↔
      extract_send_msg yamlParse response ≠ [] := by
  unfold multi_can_handle
  simp [List.length_pos]

/-- C6 — the code at the failing input.  With the interrupt observed set,
empty human intervention input, a completion result that happens to be the
empty string, and a pending response structurally matched by a handler:
`_handle_run_interrupt` does return `_complete_task`'s result (first
conjunct), but `_main_loop`'s `if interrupt_result:` truthiness test treats
the empty string like `None`, so the turn falls through and *executes the
matched handler* instead of returning the completion result (second
conjunct) — contradicting `_handle_run_interrupt`'s documented contract
that a non-`None`, non-tuple return value is the run's result. -/
theorem C6_empty_completion_falls_through :
    loopEnvBug.interrupt = true ∧
    loopEnvBug.interventionInput = "" ∧
    matchAllHandler.canHandle "some pending response" = true ∧
    handle_run_interrupt loopEnvBug "some pending response" =
      (.str loopEnvBug.completeResult, "") ∧
    main_loop_turn loopEnvBug "some pending response" =
      .nextTurn "HANDLER_RAN" false := by
  refine ⟨rfl, rfl, rfl, rfl, by decide⟩

/-- C8: a routed message whose `to` names an unregistered agent does not end
the coordinator's run: the loop continues by re-invoking the *sender* with
the corrective prompt, and that prompt lists every registered agent name. -/
theorem C8_unknown_agent_reinvokes_sender (agents : AgentRegistry)
    (fuel : Nat) (lastAgent : String) (m : SendMsg)
    (hto : agents.lookup m.«to» = none)
    (_hlast : (agents.lookup lastAgent).isSome = true) :
    multi_run_loop agents (fuel + 1) lastAgent (.msg m) =
      multi_run_loop agents fuel lastAgent
        (agentCall agents lastAgent (unknown_agent_msg m.«to» agents)) ∧
    ∀ n ∈ agents.map Prod.fst,
      containsStr n (unknown_agent_msg m.«to» agents) = true := by
  constructor
  · simp [multi_run_loop, hto]
  · intro n hn
    unfold unknown_agent_msg dictKeysRepr
    exact containsStr_append_right _ _ _ (containsStr_append_left _ _ _
      (containsStr_append_right _ _ _ (containsStr_quoteJoin _ _ hn)))

theorem C8_unknown_agent_reinvokes_sender_witness :
    agentsFixture.lookup "ghost" = none ∧
    (agentsFixture.lookup "ag1").isSome = true ∧
    (multi_run_loop agentsFixture 5 "ag1" (.msg ⟨"ghost", "hello"⟩) =
      multi_run_loop agentsFixture 4 "ag1"
        (agentCall agentsFixture "ag1" (unknown_agent_msg "ghost" agentsFixture)) ∧
     ∀ n ∈ agentsFixture.map Prod.fst,
       containsStr n (unknown_agent_msg "ghost" agentsFixture) = true) :=
  ⟨rfl, rfl,
   C8_unknown_agent_reinvokes_sender agentsFixture 4 "ag1" ⟨"ghost", "hello"⟩ rfl rfl⟩

/-- An `Except` is `isOk` exactly when it is an `ok`. -/
theorem except_isOk_iff {ε α : Type} (x : Except ε α) :
    x.isOk = true ↔ ∃ a, x = .ok a := by
  cases x <;> simp [Except.isOk, Except.toBool]

/-- The dict comprehension succeeds exactly when every requested name is
registered. -/
theorem use_tools_build_ok_iff (tools : ToolTable) (names : List String) :
    (∃ tb, use_tools_build tools names = .ok tb) ↔
      ∀ n ∈ names, (tools.lookup n).isSome = true := by
  induction names with
  | nil => simp [use_tools_build]
  | cons n rest ih =>
    cases hn : tools.lookup n with
    | none =>
      simp only [use_tools_build, hn, List.mem_cons]
      constructor
      · rintro ⟨tb, htb⟩; cases htb
      · intro h
        have := h n (Or.inl rfl)
        rw [hn] at this
        cases this
    | some t =>
      cases hb : use_tools_build tools rest with
      | ok tb =>
        simp only [use_tools_build, hn, hb, List.mem_cons]
        constructor
        · intro _ m hm
          rcases hm with rfl | hm
          · simp [hn]
          · exact (ih.mp ⟨tb, hb⟩) m hm
        · intro _
          exact ⟨(n, t) :: tb, rfl⟩
      | error e =>
        simp only [use_tools_build, hn, hb, List.mem_cons]
        constructor
        · rintro ⟨tb, htb⟩; cases htb
        · intro h
          rcases ih.mpr (fun m hm => h m (Or.inr hm)) with ⟨tb, htb⟩
          rw [htb] at hb
          cases hb

/-- When the dict comprehension raises, the `KeyError` names a missing
requested tool. -/
theorem use_tools_build_error (tools : ToolTable) (names : List String)
    (e : String) (he : use_tools_build tools names = .error e) :
    ∃ n ∈ names, tools.lookup n = none ∧ e = "KeyError: " ++ n := by
  induction names with
  | nil => cases he
  | cons n rest ih =>
    cases hn : tools.lookup n with
    | none =>
      rw [use_tools_build, hn] at he
      cases he
      exact ⟨n, List.mem_cons_self n rest, hn, rfl⟩
    | some t =>
      cases hb : use_tools_build tools rest with
      | ok tb => rw [use_tools_build, hn, hb] at he; cases he
      | error e2 =>
        rw [use_tools_build, hn, hb] at he
        cases he
        obtain ⟨m, hm, hlook, hkey⟩ := ih hb
        exact ⟨m, List.mem_cons_of_mem n hm, hlook, hkey⟩

/-- C9: `ToolRegistry.use_tools` succeeds exactly when every requested name
is registered; when any requested name is missing it prints the warning
and the dict comprehension raises a `KeyError` naming a missing requested
tool, instead of restricting to the available subset. -/
theorem C9_use_tools_keyerror_on_missing (tools : ToolTable) (names : List String) :
    ((use_tools tools names).2.isOk = true ↔
      ∀ n ∈ names, (tools.lookup n).isSome = true) ∧
    ((use_tools tools names).1 = true ↔
      ∃ n ∈ names, tools.lookup n = none) ∧
    (∀ e, (use_tools tools names).2 = .error e →
      ∃ n ∈ names, tools.lookup n = none ∧ e = "KeyError: " ++ n) := by
  refine ⟨?_, ?_, ?_⟩
  · rw [show (use_tools tools names).2 = use_tools_build tools names from rfl,
      except_isOk_iff]
    exact use_tools_build_ok_iff tools names
  · rw [show (use_tools tools names).1 =
      decide (names.filter (fun n => (tools.lookup n).isNone) ≠ []) from rfl,
      decide_eq_true_iff, Ne, List.filter_eq_nil_iff]
    push_neg
    constructor
    · rintro ⟨n, hn, h⟩
      refine ⟨n, hn, ?_⟩
      simpa [Option.isNone_iff_eq_none] using h
    · rintro ⟨n, hn, h⟩
      exact ⟨n, hn, by simp [h]⟩
  · intro e he
    exact use_tools_build_error tools names e he

/-- C10: `ToolRegistry.handle` returns `terminate = false` in every branch
(zero, one, or many extracted calls), and so does `PatchOutputHandler`;
among the handlers, only `MultiAgent.handle` can return `terminate = true`,
and it does so exactly when the response yields a single send-message
action. -/
theorem C10_only_send_message_terminates :
    (∀ (env : DispatchEnv) (tools : ToolTable)
       (yamlParse : String → Option ToolCall) (response : String),
      (registry_handle env tools yamlParse response).1 = false) ∧
    (∀ (applyPatch : String → String) (response : String),
      (patch_handle applyPatch response).1 = false) ∧
    (∀ (yamlParse : String → Option SendMsg) (response : String),
      (multi_handle yamlParse response).1 = true ↔
        (extract_send_msg yamlParse response).length = 1) := by
  refine ⟨?_, ?_, ?_⟩
  · intro env tools yamlParse response
    unfold registry_handle
    cases h : extract_tool_calls yamlParse response with
    | nil => simp [h]
    | cons tc rest =>
      cases rest with
      | nil => simp [h]
      | cons tc2 rest2 => simp [h]
  · intro applyPatch response
    rfl
  · intro yamlParse response
    unfold multi_handle
    cases h : extract_send_msg yamlParse response with
    | nil => simp [h]
    | cons a t =>
      cases t with
      | nil => simp [h]
      | cons b t2 => simp [h]

end Jarvis
